import Mathlib

/-!
SCPI-via-Ethernet-Qt: a shallow embedding of `ScpiDevice` and `GeneratorDevice`

The development has three layers.

* `Qt`: executable models of the few Qt library functions the two classes call
  (`QString::arg`, `QString::toInt`, `QString::split`, case-insensitive
  `QString::contains`, and the socket calls).
* `ScpiDevice`: the query engine and command layer of `scpidevice.cpp`, as
  state-passing functions.  Everything the transport decides (how an event-loop
  wait ended, what the socket looks like afterwards, which bytes were read) is
  an explicit argument of the operation.
* `GeneratorDevice`: the controller of `generatordevice.cpp`.
-/

namespace Qt

/-! ## QString -/

/-- Value of an ASCII decimal digit, as `QChar::digitValue` gives it (`-1` is `none`). -/
def digitValue (c : Char) : Option Nat :=
  if 48 ≤ c.toNat ∧ c.toNat ≤ 57 then some (c.toNat - 48) else none

/-- A piece of a `QString::arg` template: an ordinary character or a place marker
`%N` / `%LN` with its number and its source characters. -/
inductive ArgPart where
  | text (c : Char)
  | escape (n : Nat) (raw : List Char)
  deriving DecidableEq, Repr

/-- Reads a place marker whose `%` has just been consumed: optional `L`, one digit,
optionally a second digit.  Gives the marker number and how many characters after
the `%` belong to it. -/
def scanEscape (s : List Char) : Option (Nat × Nat) :=
  match s with
  | [] => none
  | c :: t =>
    let loc : Nat := if c = 'L' then 1 else 0
    let u := if c = 'L' then t else s
    match u with
    | [] => none
    | d :: v =>
      match digitValue d with
      | none => none
      | some n =>
        match v with
        | [] => some (n, loc + 1)
        | e :: _ =>
          match digitValue e with
          | some m => some (10 * n + m, loc + 2)
          | none => some (n, loc + 1)

/-- Splits a template into characters and place markers, scanning left to right as
`findArgEscapes` does.  The first argument bounds the number of steps; the length of
the template is always enough. -/
def argParts : Nat → List Char → List ArgPart
  | 0, _ => []
  | _ + 1, [] => []
  | fuel + 1, c :: t =>
    if c = '%' then
      match scanEscape t with
      | some (n, k) => ArgPart.escape n (c :: t.take k) :: argParts fuel (t.drop k)
      | none => ArgPart.text c :: argParts fuel t
    else ArgPart.text c :: argParts fuel t

/-- The lowest marker number among the parts, if there is a marker. -/
def minEscape : List ArgPart → Option Nat
  | [] => none
  | ArgPart.text _ :: ps => minEscape ps
  | ArgPart.escape n _ :: ps =>
    match minEscape ps with
    | none => some n
    | some m => some (min n m)

/-- Writes the parts back, the markers numbered `lowest` replaced by `a`. -/
def fillParts (lowest : Nat) (a : List Char) : List ArgPart → List Char
  | [] => []
  | ArgPart.text c :: ps => c :: fillParts lowest a ps
  | ArgPart.escape n raw :: ps =>
    if n = lowest then a ++ fillParts lowest a ps else raw ++ fillParts lowest a ps

/-- Model of `QString::arg(const QString &a)` with field width 0: every occurrence of
the lowest-numbered place marker of the template is replaced by `a`; a template
without a marker is returned unchanged. -/
def arg (template a : String) : String :=
  let parts := argParts template.data.length template.data
  match minEscape parts with
  | none => template
  | some lowest => String.mk (fillParts lowest a.data parts)

/-- Model of `QString::arg(double a, int fieldWidth, char format, int precision)` with
field width 0.  The rendering of a double is the library's; it is the parameter
`number`, which receives the value, the format character and the precision. -/
def argDouble {Double : Type} (number : Double → Char → Nat → String)
    (template : String) (a : Double) (format : Char) (precision : Nat) : String :=
  arg template (number a format precision)

/-- Model of `QChar::isSpace`: the control characters 9 to 13, U+0085, U+00A0 and the
Unicode separators. -/
def isSpace (c : Char) : Bool :=
  let n := c.toNat
  (9 ≤ n && n ≤ 13) || n == 32 || n == 0x85 || n == 0xA0 || n == 0x1680 ||
  (0x2000 ≤ n && n ≤ 0x200A) || n == 0x2028 || n == 0x2029 || n == 0x202F ||
  n == 0x205F || n == 0x3000

/-- Removes leading and trailing white space. -/
def trimmed (s : List Char) : List Char :=
  ((s.dropWhile isSpace).reverse.dropWhile isSpace).reverse

/-- Value of a run of ASCII decimal digits read after the accumulator `acc`; `none` as
soon as a character is not a digit. -/
def digitsValue (acc : Nat) : List Char → Option Nat
  | [] => some acc
  | c :: t =>
    match digitValue c with
    | none => none
    | some d => digitsValue (10 * acc + d) t

/-- Reads an optional sign followed by at least one decimal digit and nothing else. -/
def signedValue (s : List Char) : Option Int :=
  match s with
  | [] => none
  | c :: t =>
    if c = '+' then
      (if t.isEmpty then none else (digitsValue 0 t).map Int.ofNat)
    else if c = '-' ∨ c.toNat = 0x2212 then
      (if t.isEmpty then none else (digitsValue 0 t).map (fun n => - Int.ofNat n))
    else (digitsValue 0 s).map Int.ofNat

/-- Model of `QString::toInt()` (base 10, C locale): surrounding white space is
ignored, the rest must be an optionally signed run of decimal digits whose value fits
a 32-bit `int`; when the conversion fails the result is 0. -/
def toInt (s : String) : Int :=
  match signedValue (trimmed s.data) with
  | none => 0
  | some v => if -2147483648 ≤ v ∧ v ≤ 2147483647 then v else 0

/-- Splits at every occurrence of `sep`, keeping empty parts. -/
def splitChars (sep : Char) : List Char → List (List Char)
  | [] => [[]]
  | c :: t =>
    if c = sep then [] :: splitChars sep t
    else
      match splitChars sep t with
      | [] => [[c]]
      | h :: r => (c :: h) :: r

/-- Model of `QString::split(sep)` with the default `KeepEmptyParts`, for a separator
of one character (the source only splits at `","`). -/
def split (s : String) (sep : Char) : List String :=
  (splitChars sep s.data).map String.mk

/-- Model of `QStringList::at(0)`. -/
def at0 (l : List String) : String := l.headD ""

/-- Case folding as far as it matters for matching a needle of ASCII letters: the
capital letters, and the two other characters that Unicode simple case folding maps
to an ASCII letter (U+017F to `s`, U+212A to `k`).  The result is the code point. -/
def foldCase (c : Char) : Nat :=
  let n := c.toNat
  if 65 ≤ n ∧ n ≤ 90 then n + 32
  else if n = 0x17F then 115
  else if n = 0x212A then 107
  else n

/-- Whether `needle` occurs as a contiguous block of `hay`. -/
def findBlock (needle : List Nat) : List Nat → Bool
  | [] => needle.isEmpty
  | c :: cs => needle.isPrefixOf (c :: cs) || findBlock needle cs

/-- Model of `QString::contains(needle, Qt::CaseInsensitive)`. -/
def containsCI (hay needle : String) : Bool :=
  findBlock (needle.data.map foldCase) (hay.data.map foldCase)

/-! ## QTcpSocket, QTimer, QEventLoop -/

/-- The values of `QAbstractSocket::SocketState`. -/
inductive SocketState where
  | UnconnectedState
  | HostLookupState
  | ConnectingState
  | ConnectedState
  | BoundState
  | ListeningState
  | ClosingState
  deriving DecidableEq, Repr

/-- What the device code can observe of its socket: `isValid()` and `state()`. -/
structure QTcpSocket where
  isValid : Bool
  state : SocketState
  deriving DecidableEq, Repr

/-- The signals the device code wires to `QEventLoop::quit`. -/
inductive Signal where
  | connected
  | bytesWritten
  | readyRead
  | timeout
  deriving DecidableEq, Repr

/-- The calls the device code makes on its socket, timer and event loop. -/
inductive Call where
  | newSocket
  | newTimer
  | newEventLoop
  | setSingleShot (singleShot : Bool)
  | connectQuit (s : Signal)
  | disconnectQuit (s : Signal)
  | connectToHost (address : String) (port : Nat)
  | disconnectFromHost
  | write (bytes : String)
  | timerStart (msec : Nat)
  | exec
  | readAll
  deriving DecidableEq, Repr

/-- Model of `QAbstractSocket::disconnectFromHost()`.  An unconnected socket is left
alone; while a connection attempt is in progress the close is only noted and the
state does not change; otherwise the socket enters `ClosingState` when data is still
waiting to be written and `UnconnectedState` when not. -/
def QTcpSocket.disconnectFromHost (s : QTcpSocket) (pendingData : Bool) : QTcpSocket :=
  match s.state with
  | SocketState.UnconnectedState => s
  | SocketState.HostLookupState => s
  | SocketState.ConnectingState => s
  | _ =>
    { s with state := if pendingData then SocketState.ClosingState
                      else SocketState.UnconnectedState }

/-- How one `localEventloop->exec()` ended, as far as the device code can tell. -/
structure Wait where
  /-- Value of `timeoutTimer->isActive()` after the wait: `false` exactly when the
  single-shot timer fired. -/
  timerActive : Bool
  /-- The socket as it is after the wait. -/
  socket : QTcpSocket
  deriving DecidableEq, Repr

end Qt

open Qt

/-! ## ScpiDevice -/

/-- The two exception classes of `scpidevice.h`, by dynamic type.  `ScpiQueryError`
derives from `ScpiDeviceError`: a handler for `ScpiDeviceError&` catches both, a
handler for `ScpiQueryError&` only the second. -/
inductive ScpiError where
  | ScpiDeviceError (errstr : String)
  | ScpiQueryError (errstr : String)
  deriving DecidableEq, Repr

/-- The text `what()` returns. -/
def ScpiError.what : ScpiError → String
  | ScpiDeviceError errstr => errstr
  | ScpiQueryError errstr => errstr

/-- Whether a handler for `ScpiQueryError&` catches the exception. -/
def ScpiError.isQueryError : ScpiError → Bool
  | ScpiDeviceError _ => false
  | ScpiQueryError _ => true

deriving instance DecidableEq for Except

/-- The data members of `ScpiDevice`.  `socket` is what the socket reports once it has
been created; `calls` lists, oldest first, the calls made so far on the socket, the
timer and the event loop. -/
structure ScpiDevice where
  IPaddr : String
  port : Nat
  timeout_ms : Nat
  socket : QTcpSocket
  calls : List Call
  deriving DecidableEq, Repr

/-- What the transport decides during `connectToDevice`. -/
structure ConnectEnv where
  /-- Whether unwritten data is pending when the previous connection is closed. -/
  pendingData : Bool
  /-- How the wait for the connection ended. -/
  wait : Wait
  deriving DecidableEq, Repr

/-- What the transport decides during `sendQuery`. -/
structure QueryEnv where
  /-- How the wait for the bytes to be written ended. -/
  sent : Wait
  /-- How the wait for the response ended. -/
  received : Wait
  /-- The text of `socket->readAll()`. -/
  response : String
  deriving DecidableEq, Repr

namespace ScpiDevice

/-- The object before the constructor body runs: the default member initialisers of
`scpidevice.h`, and no Qt object created yet. -/
def members : ScpiDevice :=
  { IPaddr := "0.0.0.0"
    port := 0
    timeout_ms := 1000
    socket := { isValid := false, state := SocketState.UnconnectedState }
    calls := [] }

/-- `ScpiDevice::setIpAddr`.  `setAddress` is `QHostAddress::setAddress`, giving the
parsed address when the text is one. -/
def setIpAddr (setAddress : String → Option String) (d : ScpiDevice) (devIPaddr : String) :
    ScpiDevice × Except ScpiError Unit :=
  match setAddress devIPaddr with
  | none => (d, Except.error (ScpiError.ScpiDeviceError "Invalid IP address."))
  | some a => ({ d with IPaddr := a }, Except.ok ())

/-- `ScpiDevice::setPort`. -/
def setPort (d : ScpiDevice) (devport : Nat) : ScpiDevice × Except ScpiError Unit :=
  if devport = 0 ∨ devport > 65535 then
    (d, Except.error (ScpiError.ScpiDeviceError "Invalid TCP port."))
  else
    ({ d with port := devport }, Except.ok ())

/-- `ScpiDevice::setTimeout`. -/
def setTimeout (d : ScpiDevice) (scpitimeout : Nat) : ScpiDevice × Except ScpiError Unit :=
  if scpitimeout > 100000 then
    (d, Except.error (ScpiError.ScpiDeviceError "The SCPI timeout is too large."))
  else
    ({ d with timeout_ms := scpitimeout }, Except.ok ())

/-- `ScpiDevice::ScpiDevice`: the constructor body, run on `members`.  When it throws,
the first component is the object as the exception leaves it. -/
def ctor (setAddress : String → Option String) (devIPaddr : String) (devport : Nat) :
    ScpiDevice × Except ScpiError Unit :=
  match setIpAddr setAddress members devIPaddr with
  | (d, Except.error e) => (d, Except.error e)
  | (d, Except.ok ()) =>
    match setPort d devport with
    | (d, Except.error e) => (d, Except.error e)
    | (d, Except.ok ()) =>
      ({ d with
          socket := { isValid := false, state := SocketState.UnconnectedState }
          calls := d.calls ++ [Call.newSocket, Call.newTimer, Call.newEventLoop,
                               Call.setSingleShot true] },
        Except.ok ())

/-- `ScpiDevice::disconnectFromDevice`. -/
def disconnectFromDevice (d : ScpiDevice) (pendingData : Bool) : ScpiDevice :=
  if !d.socket.isValid then d
  else if d.socket.state = SocketState.UnconnectedState then d
  else
    { d with
        socket := d.socket.disconnectFromHost pendingData
        calls := d.calls ++ [Call.disconnectFromHost] }

/-- `ScpiDevice::isConnected`. -/
def isConnected (d : ScpiDevice) : Bool :=
  if d.socket.isValid && d.socket.state = SocketState.ConnectedState then true else false

/-- `ScpiDevice::connectToDevice`. -/
def connectToDevice (d : ScpiDevice) (env : ConnectEnv) : ScpiDevice × Except ScpiError Unit :=
  let d := disconnectFromDevice d env.pendingData
  let d := { d with
      calls := d.calls ++ [Call.connectQuit Signal.connected, Call.connectQuit Signal.timeout,
                           Call.connectToHost d.IPaddr d.port, Call.timerStart d.timeout_ms,
                           Call.exec]
      socket := env.wait.socket }
  if !env.wait.timerActive then
    (d, Except.error (ScpiError.ScpiDeviceError "Error connecting to a device. Timeout expired."))
  else (d, Except.ok ())

/-- `ScpiDevice::sendQuery`. -/
def sendQuery (d : ScpiDevice) (query : String) (env : QueryEnv) :
    ScpiDevice × Except ScpiError String :=
  if !d.socket.isValid || d.socket.state ≠ SocketState.ConnectedState then
    (d, Except.error
      (ScpiError.ScpiDeviceError "Incorrect socket state (invalid or not connected)."))
  else
    let query_eol := arg "%1\n" query
    let d := { d with
        calls := d.calls ++ [Call.connectQuit Signal.bytesWritten,
                             Call.connectQuit Signal.timeout, Call.write query_eol,
                             Call.timerStart d.timeout_ms, Call.exec]
        socket := env.sent.socket }
    if !env.sent.timerActive then
      (d, Except.error (ScpiError.ScpiQueryError "Sending timeout expired."))
    else
      let d := { d with
          calls := d.calls ++ [Call.disconnectQuit Signal.bytesWritten,
                               Call.connectQuit Signal.readyRead,
                               Call.timerStart d.timeout_ms, Call.exec]
          socket := env.received.socket }
      if !env.received.timerActive then
        (d, Except.error (ScpiError.ScpiQueryError "Receiving timeout expired."))
      else
        ({ d with calls := d.calls ++ [Call.readAll] }, Except.ok env.response)

/-- `ScpiDevice::sendCommand`. -/
def sendCommand (d : ScpiDevice) (command : String) (env : QueryEnv) :
    ScpiDevice × Except ScpiError Unit :=
  match sendQuery d (arg "%1; *OPC?" command) env with
  | (d, Except.error e) => (d, Except.error e)
  | (d, Except.ok status) =>
    if toInt status ≠ 1 then
      (d, Except.error
        (ScpiError.ScpiQueryError "The device has returned an unexpected OPC code (not 1)."))
    else (d, Except.ok ())

/-- `ScpiDevice::reset`. -/
def reset (d : ScpiDevice) (env : QueryEnv) : ScpiDevice × Except ScpiError Unit :=
  match sendCommand d "*RST;" env with
  | (d, Except.error (ScpiError.ScpiQueryError errstr)) =>
    (d, Except.error (ScpiError.ScpiQueryError (arg "Unable to reset the device: %1" errstr)))
  | r => r

/-- `ScpiDevice::clearState`. -/
def clearState (d : ScpiDevice) (env : QueryEnv) : ScpiDevice × Except ScpiError Unit :=
  match sendCommand d "*CLS;" env with
  | (d, Except.error (ScpiError.ScpiQueryError errstr)) =>
    (d, Except.error
      (ScpiError.ScpiQueryError (arg "Unable to clear the device's state register: %1" errstr)))
  | r => r

/-- `ScpiDevice::getIDN`. -/
def getIDN (d : ScpiDevice) (env : QueryEnv) : ScpiDevice × Except ScpiError String :=
  match sendQuery d "*IDN?" env with
  | (d, Except.error (ScpiError.ScpiQueryError errstr)) =>
    (d, Except.error (ScpiError.ScpiQueryError (arg "Unable to get an ID string: %1" errstr)))
  | r => r

end ScpiDevice


/-! ## GeneratorDevice -/

/-- The data members of `GeneratorDevice`: the `ScpiDevice` base object, the
identification string and the two vendor flags. -/
structure GeneratorDevice where
  base : ScpiDevice
  IDstring : String
  isKeysight : Bool
  isRandS : Bool
  deriving DecidableEq, Repr

/-- The closed enumeration of dialects of the specification. -/
inductive Dialect where
  | Unknown
  | RohdeSchwarz
  | Keysight
  deriving DecidableEq, Repr

namespace GeneratorDevice

/-- Runs an operation of the base class on the base object. -/
def onBase {α : Type} (g : GeneratorDevice) (r : ScpiDevice × Except ScpiError α) :
    GeneratorDevice × Except ScpiError α :=
  ({ g with base := r.1 }, r.2)

/-- The object before the constructor body runs: default member initialisers, the
base not yet constructed. -/
def members : GeneratorDevice :=
  { base := ScpiDevice.members, IDstring := "", isKeysight := false, isRandS := false }

/-- The message of the exception thrown for an unsupported generator.  The literal
is continued over four source lines, so the indentation of the continuation lines is
part of it. -/
def unsupportedMessage : String :=
  "The generatorn isn't supported. Try to activate SCPI " ++
  "                interpreter compatible with on of the Rohde & Schwarz or " ++
  "                    Keysight/Agilent generators. Usually such an option is " ++
  "                        available in the generator settings."

/-- `GeneratorDevice::GeneratorDevice`, from the statement after `connectToDevice()`
on: the identity query, the two vendor flags, and the check that one of them is set.
`g.base` is the base object after the connect step. -/
def identify (g : GeneratorDevice) (qenv : QueryEnv) (pendingData : Bool) :
    GeneratorDevice × Except ScpiError Unit :=
  match ScpiDevice.getIDN g.base qenv with
  | (d, Except.error err) =>
    ({ g with base := ScpiDevice.disconnectFromDevice d pendingData }, Except.error err)
  | (d, Except.ok idn) =>
    let g := { g with base := d, IDstring := idn }
    let g := { g with
        isKeysight := containsCI g.IDstring "Agilent" || containsCI g.IDstring "Keysight" }
    let g := { g with isRandS := containsCI g.IDstring "Rohde&Schwarz" }
    if !(g.isKeysight || g.isRandS) then
      ({ g with base := ScpiDevice.disconnectFromDevice g.base pendingData },
        Except.error (ScpiError.ScpiDeviceError unsupportedMessage))
    else (g, Except.ok ())

/-- `GeneratorDevice::GeneratorDevice`: base constructor, `connectToDevice()`, then
`identify`.  When it throws, the first component is the object as the exception
leaves it. -/
def ctor (setAddress : String → Option String) (genIPaddr : String) (genport : Nat)
    (cenv : ConnectEnv) (qenv : QueryEnv) (pendingData : Bool) :
    GeneratorDevice × Except ScpiError Unit :=
  match ScpiDevice.ctor setAddress genIPaddr genport with
  | (d, Except.error e) => ({ members with base := d }, Except.error e)
  | (d, Except.ok ()) =>
    match ScpiDevice.connectToDevice d cenv with
    | (d, Except.error e) => ({ members with base := d }, Except.error e)
    | (d, Except.ok ()) => identify { members with base := d } qenv pendingData

/-- The dialect `setPW` and `setPRI` dispatch on: they test `isRandS` first and
`isKeysight` second. -/
def dialect (g : GeneratorDevice) : Dialect :=
  if g.isRandS then Dialect.RohdeSchwarz
  else if g.isKeysight then Dialect.Keysight
  else Dialect.Unknown

variable {Double : Type} (number : Double → Char → Nat → String)

/-- `GeneratorDevice::setFreq`. -/
def setFreq (g : GeneratorDevice) (freq_Hz : Double) (env : QueryEnv) :
    GeneratorDevice × Except ScpiError Unit :=
  onBase g (ScpiDevice.sendCommand g.base (argDouble number ":FREQ %1Hz" freq_Hz 'f' 0) env)

/-- `GeneratorDevice::setPow`. -/
def setPow (g : GeneratorDevice) (pow_dbm : Double) (env : QueryEnv) :
    GeneratorDevice × Except ScpiError Unit :=
  onBase g (ScpiDevice.sendCommand g.base (argDouble number ":POW %1dbm" pow_dbm 'f' 2) env)

/-- `GeneratorDevice::ALCoff`. -/
def ALCoff (g : GeneratorDevice) (env : QueryEnv) : GeneratorDevice × Except ScpiError Unit :=
  onBase g (ScpiDevice.sendCommand g.base ":POW:ALC OFF" env)

/-- `GeneratorDevice::setPW`. -/
def setPW (g : GeneratorDevice) (pw_us : Double) (env : QueryEnv) :
    GeneratorDevice × Except ScpiError Unit :=
  if g.isRandS then
    onBase g (ScpiDevice.sendCommand g.base
      (argDouble number ":PULM:WIDT %1uS" pw_us 'f' 2) env)
  else if g.isKeysight then
    onBase g (ScpiDevice.sendCommand g.base
      (argDouble number ":PULM:INT:PWID %1uS" pw_us 'f' 2) env)
  else (g, Except.ok ())

/-- `GeneratorDevice::setPRI`. -/
def setPRI (g : GeneratorDevice) (pri_us : Double) (env : QueryEnv) :
    GeneratorDevice × Except ScpiError Unit :=
  if g.isRandS then
    onBase g (ScpiDevice.sendCommand g.base
      (argDouble number ":PULM:PER %1uS" pri_us 'f' 2) env)
  else if g.isKeysight then
    onBase g (ScpiDevice.sendCommand g.base
      (argDouble number ":PULM:INT:PER %1uS" pri_us 'f' 2) env)
  else (g, Except.ok ())

/-- `GeneratorDevice::activatePmod`. -/
def activatePmod (g : GeneratorDevice) (env : QueryEnv) :
    GeneratorDevice × Except ScpiError Unit :=
  onBase g (ScpiDevice.sendCommand g.base ":PULM:STAT ON" env)

/-- `GeneratorDevice::deactivateRFpow`. -/
def deactivateRFpow (g : GeneratorDevice) (env : QueryEnv) :
    GeneratorDevice × Except ScpiError Unit :=
  onBase g (ScpiDevice.sendCommand g.base ":OUTP:STAT OFF" env)

/-- `GeneratorDevice::activateRFpow`. -/
def activateRFpow (g : GeneratorDevice) (env : QueryEnv) :
    GeneratorDevice × Except ScpiError Unit :=
  onBase g (ScpiDevice.sendCommand g.base ":OUTP:STAT ON" env)

/-- `GeneratorDevice::checkForStaticErrors`. -/
def checkForStaticErrors (g : GeneratorDevice) (env : QueryEnv) :
    GeneratorDevice × Except ScpiError Unit :=
  if !g.isRandS then (g, Except.ok ())
  else
    match ScpiDevice.sendQuery g.base "SYST:SERR?" env with
    | (d, Except.error e) => ({ g with base := d }, Except.error e)
    | (d, Except.ok static_errors) =>
      let err_codes_descrs := split static_errors ','
      if toInt (at0 err_codes_descrs) ≠ 0 then
        ({ g with base := d }, Except.error (ScpiError.ScpiDeviceError static_errors))
      else ({ g with base := d }, Except.ok ())

/-- `GeneratorDevice::checkForErrors`. -/
def checkForErrors (g : GeneratorDevice) (env : QueryEnv) :
    GeneratorDevice × Except ScpiError Unit :=
  match ScpiDevice.sendQuery g.base "SYST:ERR?" env with
  | (d, Except.error err) =>
    ({ g with base := d },
      Except.error
        (ScpiError.ScpiQueryError (arg "Unable to request the errors list (%1)" err.what)))
  | (d, Except.ok errors) =>
    let err_codes_descrs := split errors ','
    if toInt (at0 err_codes_descrs) ≠ 0 then
      ({ g with base := d }, Except.error (ScpiError.ScpiDeviceError errors))
    else ({ g with base := d }, Except.ok ())

/-- `GeneratorDevice::turnOffGui`. -/
def turnOffGui (g : GeneratorDevice) (env : QueryEnv) :
    GeneratorDevice × Except ScpiError Unit :=
  onBase g (ScpiDevice.sendCommand g.base "SYST:DISP:UPD OFF" env)

/-- `GeneratorDevice::turnOnGui`. -/
def turnOnGui (g : GeneratorDevice) (env : QueryEnv) :
    GeneratorDevice × Except ScpiError Unit :=
  onBase g (ScpiDevice.sendCommand g.base "SYST:DISP:UPD ON" env)

end GeneratorDevice

/-! ## Sequences of operations -/

/-- One step in the life of a controller: a call of one of its operations together
with what the transport decides during the call, or a change of the socket that
happens on its own between two calls. -/
inductive Op (Double : Type) where
  | setTimeout (scpitimeout : Nat)
  | connectToDevice (env : ConnectEnv)
  | disconnectFromDevice (pendingData : Bool)
  | reset (env : QueryEnv)
  | clearState (env : QueryEnv)
  | getIDN (env : QueryEnv)
  | sendCommand (command : String) (env : QueryEnv)
  | sendQuery (query : String) (env : QueryEnv)
  | setFreq (freq_Hz : Double) (env : QueryEnv)
  | setPow (pow_dbm : Double) (env : QueryEnv)
  | ALCoff (env : QueryEnv)
  | setPW (pw_us : Double) (env : QueryEnv)
  | setPRI (pri_us : Double) (env : QueryEnv)
  | activatePmod (env : QueryEnv)
  | deactivateRFpow (env : QueryEnv)
  | activateRFpow (env : QueryEnv)
  | checkForStaticErrors (env : QueryEnv)
  | checkForErrors (env : QueryEnv)
  | turnOffGui (env : QueryEnv)
  | turnOnGui (env : QueryEnv)
  | transport (socket : QTcpSocket)

/-- Whether the step is a call of `setTimeout`. -/
def Op.isSetTimeout {Double : Type} : Op Double → Bool
  | Op.setTimeout _ => true
  | _ => false

/-- The controller after the step, whether the call returned or threw. -/
def Op.run {Double : Type} (number : Double → Char → Nat → String) :
    Op Double → GeneratorDevice → GeneratorDevice
  | Op.setTimeout t, g => { g with base := (ScpiDevice.setTimeout g.base t).1 }
  | Op.connectToDevice env, g => { g with base := (ScpiDevice.connectToDevice g.base env).1 }
  | Op.disconnectFromDevice p, g => { g with base := ScpiDevice.disconnectFromDevice g.base p }
  | Op.reset env, g => { g with base := (ScpiDevice.reset g.base env).1 }
  | Op.clearState env, g => { g with base := (ScpiDevice.clearState g.base env).1 }
  | Op.getIDN env, g => { g with base := (ScpiDevice.getIDN g.base env).1 }
  | Op.sendCommand c env, g => { g with base := (ScpiDevice.sendCommand g.base c env).1 }
  | Op.sendQuery q env, g => { g with base := (ScpiDevice.sendQuery g.base q env).1 }
  | Op.setFreq v env, g => (GeneratorDevice.setFreq number g v env).1
  | Op.setPow v env, g => (GeneratorDevice.setPow number g v env).1
  | Op.ALCoff env, g => (GeneratorDevice.ALCoff g env).1
  | Op.setPW v env, g => (GeneratorDevice.setPW number g v env).1
  | Op.setPRI v env, g => (GeneratorDevice.setPRI number g v env).1
  | Op.activatePmod env, g => (GeneratorDevice.activatePmod g env).1
  | Op.deactivateRFpow env, g => (GeneratorDevice.deactivateRFpow g env).1
  | Op.activateRFpow env, g => (GeneratorDevice.activateRFpow g env).1
  | Op.checkForStaticErrors env, g => (GeneratorDevice.checkForStaticErrors g env).1
  | Op.checkForErrors env, g => (GeneratorDevice.checkForErrors g env).1
  | Op.turnOffGui env, g => (GeneratorDevice.turnOffGui g env).1
  | Op.turnOnGui env, g => (GeneratorDevice.turnOnGui g env).1
  | Op.transport socket, g => { g with base := { g.base with socket := socket } }

/-- The controllers that exist: the ones a constructor call returned, and the ones
obtained from those by a sequence of steps. -/
inductive Reachable {Double : Type} (number : Double → Char → Nat → String)
    (setAddress : String → Option String) : GeneratorDevice → Prop where
  | constructed (genIPaddr : String) (genport : Nat) (cenv : ConnectEnv) (qenv : QueryEnv)
      (pendingData : Bool) (g : GeneratorDevice)
      (h : GeneratorDevice.ctor setAddress genIPaddr genport cenv qenv pendingData
            = (g, Except.ok ())) :
      Reachable number setAddress g
  | step (op : Op Double) (g : GeneratorDevice) (h : Reachable number setAddress g) :
      Reachable number setAddress (op.run number g)

/-! ## Concrete devices and transports -/

namespace Sample

/-- A socket with an established connection. -/
def up : QTcpSocket := { isValid := true, state := SocketState.ConnectedState }

/-- A device whose socket is connected. -/
def connected : ScpiDevice :=
  { IPaddr := "192.168.0.10", port := 5025, timeout_ms := 1000, socket := up, calls := [] }

/-- A device that was constructed and never connected. -/
def idle : ScpiDevice :=
  { IPaddr := "192.168.0.10", port := 5025, timeout_ms := 1000,
    socket := { isValid := false, state := SocketState.UnconnectedState }, calls := [] }

/-- A wait that ends before the timer fires, the connection still up. -/
def inTime : Wait := { timerActive := true, socket := up }

/-- A wait for a connection that ends because the timer fired, the attempt still in
progress. -/
def expiredConnecting : Wait :=
  { timerActive := false, socket := { isValid := true, state := SocketState.ConnectingState } }

/-- A query exchange in which both waits end in time and the device answers
`response`. -/
def answers (response : String) : QueryEnv :=
  { sent := inTime, received := inTime, response := response }

/-- A query exchange in which the write completes and no response arrives. -/
def silent : QueryEnv :=
  { sent := inTime, received := { timerActive := false, socket := up }, response := "" }

/-- A connection attempt that succeeds in time. -/
def connects : ConnectEnv := { pendingData := false, wait := inTime }

/-- An address parser that accepts the dotted address of the sample devices only. -/
def setAddress (s : String) : Option String :=
  if s = "192.168.0.10" then some s else none

/-- A rendering of hundredths as a number with two fractional digits, used where a
concrete `number` is needed; the format and precision are ignored. -/
def number (hundredths : Nat) (_format : Char) (_precision : Nat) : String :=
  toString (hundredths / 100) ++ "." ++ toString (hundredths % 100 / 10) ++
    toString (hundredths % 10)

/-- A Keysight controller with a connected socket. -/
def keysight : GeneratorDevice :=
  { base := connected, IDstring := "Agilent Technologies, E8267D", isKeysight := true,
    isRandS := false }

/-- A Rohde&Schwarz controller with a connected socket. -/
def rohde : GeneratorDevice :=
  { base := connected, IDstring := "Rohde&Schwarz,SMB100A", isKeysight := false,
    isRandS := true }

end Sample

/-! ## Facts about the library models -/

theorem arg_suffix (c : String) : arg "%1; *OPC?" c = c ++ "; *OPC?" := by
  cases c; rfl

theorem arg_eol (q : String) : arg "%1\n" q = q ++ "\n" := by
  cases q; rfl

theorem arg_reset (m : String) :
    arg "Unable to reset the device: %1" m = "Unable to reset the device: " ++ m := by
  cases m with
  | mk l =>
    have h : arg "Unable to reset the device: %1" (String.mk l) = "Unable to reset the device: " ++ String.mk (l ++ []) := rfl
    rw [h, List.append_nil]

theorem arg_clearState (m : String) :
    arg "Unable to clear the device's state register: %1" m
      = "Unable to clear the device's state register: " ++ m := by
  cases m with
  | mk l =>
    have h : arg "Unable to clear the device's state register: %1" (String.mk l) = "Unable to clear the device's state register: " ++ String.mk (l ++ []) := rfl
    rw [h, List.append_nil]

theorem arg_getIDN (m : String) :
    arg "Unable to get an ID string: %1" m = "Unable to get an ID string: " ++ m := by
  cases m with
  | mk l =>
    have h : arg "Unable to get an ID string: %1" (String.mk l) = "Unable to get an ID string: " ++ String.mk (l ++ []) := rfl
    rw [h, List.append_nil]

theorem arg_checkForErrors (m : String) :
    arg "Unable to request the errors list (%1)" m
      = "Unable to request the errors list (" ++ m ++ ")" := by
  cases m; rfl

theorem arg_unit (mnemonic f : String) (h : mnemonic ∈ [":PULM:WIDT", ":PULM:INT:PWID",
    ":PULM:PER", ":PULM:INT:PER"]) :
    arg (mnemonic ++ " %1uS") f = mnemonic ++ " " ++ f ++ "uS" := by
  simp only [List.mem_cons, List.mem_singleton, List.not_mem_nil, or_false] at h
  rcases h with h | h | h | h <;> subst h <;> cases f <;> rfl

theorem containsCI_lower (idn : String) :
    containsCI idn "agilent" = containsCI idn "Agilent" ∧
      containsCI idn "keysight" = containsCI idn "Keysight" ∧
      containsCI idn "rohde&schwarz" = containsCI idn "Rohde&Schwarz" :=
  ⟨rfl, rfl, rfl⟩

/-! ## The query engine -/

namespace ScpiDevice

theorem sendQuery_ok_response (d d' : ScpiDevice) (query r : String) (env : QueryEnv)
    (h : sendQuery d query env = (d', Except.ok r)) : r = env.response := by
  unfold sendQuery at h
  split_ifs at h <;> simp only [Prod.mk.injEq, Except.ok.injEq, reduceCtorEq, and_false] at h
  exact h.2.symm

theorem getIDN_ok_response (d d' : ScpiDevice) (r : String) (env : QueryEnv)
    (h : getIDN d env = (d', Except.ok r)) : r = env.response := by
  unfold getIDN at h
  rcases hq : sendQuery d "*IDN?" env with ⟨d2, e | v⟩
  · rw [hq] at h
    cases e <;> simp at h
  · rw [hq] at h
    simp only [Prod.mk.injEq, Except.ok.injEq] at h
    rw [← h.2]
    exact sendQuery_ok_response d d2 _ v env hq

theorem disconnectFromDevice_timeout (d : ScpiDevice) (pendingData : Bool) :
    (disconnectFromDevice d pendingData).timeout_ms = d.timeout_ms := by
  unfold disconnectFromDevice
  split_ifs <;> rfl

theorem connectToDevice_timeout (d : ScpiDevice) (env : ConnectEnv) :
    (connectToDevice d env).1.timeout_ms = d.timeout_ms := by
  unfold connectToDevice
  split_ifs <;> exact disconnectFromDevice_timeout d env.pendingData

theorem sendQuery_timeout (d : ScpiDevice) (query : String) (env : QueryEnv) :
    (sendQuery d query env).1.timeout_ms = d.timeout_ms := by
  unfold sendQuery
  split_ifs <;> rfl

theorem sendCommand_timeout (d : ScpiDevice) (command : String) (env : QueryEnv) :
    (sendCommand d command env).1.timeout_ms = d.timeout_ms := by
  have hq := sendQuery_timeout d (arg "%1; *OPC?" command) env
  unfold sendCommand
  rcases hr : sendQuery d (arg "%1; *OPC?" command) env with ⟨d', e | status⟩
  · rw [hr] at hq; exact hq
  · rw [hr] at hq
    simp only
    split_ifs <;> exact hq

theorem reset_timeout (d : ScpiDevice) (env : QueryEnv) :
    (reset d env).1.timeout_ms = d.timeout_ms := by
  have hq := sendCommand_timeout d "*RST;" env
  unfold reset
  rcases hr : sendCommand d "*RST;" env with ⟨d', e | u⟩
  · rw [hr] at hq; cases e <;> exact hq
  · rw [hr] at hq; exact hq

theorem clearState_timeout (d : ScpiDevice) (env : QueryEnv) :
    (clearState d env).1.timeout_ms = d.timeout_ms := by
  have hq := sendCommand_timeout d "*CLS;" env
  unfold clearState
  rcases hr : sendCommand d "*CLS;" env with ⟨d', e | u⟩
  · rw [hr] at hq; cases e <;> exact hq
  · rw [hr] at hq; exact hq

theorem getIDN_timeout (d : ScpiDevice) (env : QueryEnv) :
    (getIDN d env).1.timeout_ms = d.timeout_ms := by
  have hq := sendQuery_timeout d "*IDN?" env
  unfold getIDN
  rcases hr : sendQuery d "*IDN?" env with ⟨d', e | u⟩
  · rw [hr] at hq; cases e <;> exact hq
  · rw [hr] at hq; exact hq

theorem ctor_timeout (setAddress : String → Option String) (devIPaddr : String)
    (devport : Nat) : (ctor setAddress devIPaddr devport).1.timeout_ms = 1000 := by
  unfold ctor setIpAddr setPort
  cases setAddress devIPaddr with
  | none => rfl
  | some a =>
    simp only
    split_ifs <;> rfl

theorem isConnected_disconnectFromDevice (d : ScpiDevice) (pendingData : Bool) :
    isConnected (disconnectFromDevice d pendingData) = false := by
  rcases d with ⟨a, p, t, ⟨v, st⟩, c⟩
  cases v <;> cases st <;> cases pendingData <;> rfl

theorem sendQuery_not_connected (d : ScpiDevice) (query : String) (env : QueryEnv)
    (h : ¬ (d.socket.isValid = true ∧ d.socket.state = SocketState.ConnectedState)) :
    sendQuery d query env =
      (d, Except.error
        (ScpiError.ScpiDeviceError "Incorrect socket state (invalid or not connected).")) := by
  unfold sendQuery
  have hc : (!d.socket.isValid || decide (d.socket.state ≠ SocketState.ConnectedState)) = true := by
    cases hv : d.socket.isValid
    · simp
    · simp only [Bool.not_true, Bool.false_or, decide_eq_true_eq]
      exact fun hs => h ⟨hv, hs⟩
  rw [if_pos hc]

theorem sendCommand_not_connected (d : ScpiDevice) (command : String) (env : QueryEnv)
    (h : ¬ (d.socket.isValid = true ∧ d.socket.state = SocketState.ConnectedState)) :
    sendCommand d command env =
      (d, Except.error
        (ScpiError.ScpiDeviceError "Incorrect socket state (invalid or not connected).")) := by
  unfold sendCommand
  rw [sendQuery_not_connected d _ env h]

end ScpiDevice

/-! ## Claims about the command layer -/

/-- C1, as stated, fails: the device answers `1` followed by a line feed (and likewise
`+1`, `01`, or `1` between blanks) to the augmented query, the text is not exactly
`1`, and `sendCommand` still succeeds. -/
theorem C1_sendCommand_accepts_more_than_the_text_one :
    (ScpiDevice.sendQuery Sample.connected "*RST;; *OPC?" (Sample.answers "1\n")).2
        = Except.ok "1\n" ∧
      "1\n" ≠ "1" ∧
      (ScpiDevice.sendCommand Sample.connected "*RST;" (Sample.answers "1\n")).2
        = Except.ok () ∧
      (ScpiDevice.sendCommand Sample.connected "*RST;" (Sample.answers "+1")).2
        = Except.ok () ∧
      (ScpiDevice.sendCommand Sample.connected "*RST;" (Sample.answers "01")).2
        = Except.ok () ∧
      (ScpiDevice.sendCommand Sample.connected "*RST;" (Sample.answers " 1 ")).2
        = Except.ok () := by
  decide

/-- C1, amended: the query `sendCommand` sends is the command followed by `; *OPC?`,
and when the device returns `status` to it, `sendCommand` succeeds if and only if
`status` converts to the integer 1 under `toInt`; for every other text, `0`, the empty
text and text that is no number included, it throws the `ScpiQueryError` about the
unexpected OPC code. -/
theorem C1_sendCommand_ok_iff_status_converts_to_one
    (d d' : ScpiDevice) (command status : String) (env : QueryEnv)
    (h : ScpiDevice.sendQuery d (command ++ "; *OPC?") env = (d', Except.ok status)) :
    (ScpiDevice.sendCommand d command env = (d', Except.ok ()) ↔ toInt status = 1) ∧
      (toInt status ≠ 1 →
        ScpiDevice.sendCommand d command env =
          (d', Except.error (ScpiError.ScpiQueryError
            "The device has returned an unexpected OPC code (not 1)."))) ∧
      toInt "1" = 1 ∧ toInt "0" = 0 ∧ toInt "" = 0 ∧ toInt "one" = 0 := by
  have hs : ScpiDevice.sendCommand d command env =
      if toInt status ≠ 1 then
        (d', Except.error (ScpiError.ScpiQueryError
          "The device has returned an unexpected OPC code (not 1)."))
      else (d', Except.ok ()) := by
    unfold ScpiDevice.sendCommand
    rw [arg_suffix, h]
  refine ⟨?_, ?_, by decide, by decide, by decide, by decide⟩
  · rw [hs]
    by_cases h1 : toInt status = 1
    · simp [h1]
    · simp [h1]
  · intro h1
    rw [hs, if_pos h1]

/-- Witness of the amended C1: a connected device that answers `1` and a line feed. -/
theorem C1_sendCommand_ok_iff_status_converts_to_one_witness :
    (ScpiDevice.sendCommand Sample.connected "*RST;" (Sample.answers "1\n")
        = ((ScpiDevice.sendQuery Sample.connected ("*RST;" ++ "; *OPC?")
              (Sample.answers "1\n")).1, Except.ok ())
      ↔ toInt "1\n" = 1) :=
  (C1_sendCommand_ok_iff_status_converts_to_one Sample.connected
    (ScpiDevice.sendQuery Sample.connected ("*RST;" ++ "; *OPC?") (Sample.answers "1\n")).1
    "*RST;" "1\n" (Sample.answers "1\n") (by decide)).1

/-- C5, the code at the failing inputs: the device answers the error query with a text
whose first token is no number (a description without a code, or nothing at all), and
`checkForErrors` returns normally; for comparison, `0,"No error"` succeeds and
`-113,"Undefined header"` throws an error carrying the full text. -/
theorem C5_checkForErrors_accepts_unparsable_status :
    (GeneratorDevice.checkForErrors Sample.keysight (Sample.answers "Undefined header")).2
        = Except.ok () ∧
      (GeneratorDevice.checkForErrors Sample.keysight (Sample.answers "")).2
        = Except.ok () ∧
      (GeneratorDevice.checkForErrors Sample.keysight (Sample.answers "0,\"No error\"")).2
        = Except.ok () ∧
      (GeneratorDevice.checkForErrors Sample.keysight
          (Sample.answers "-113,\"Undefined header\"")).2
        = Except.error (ScpiError.ScpiDeviceError "-113,\"Undefined header\"") := by
  decide

/-! ## Claims about the connection state -/

/-- C6: in every state of the socket other than valid and connected, `sendQuery` throws
the `ScpiDeviceError` about the socket state, which is no `ScpiQueryError`, and leaves
the device as it was, so no byte is written and no timer started; `sendCommand`,
`reset`, `clearState` and every generator operation that sends a command throw the
same error and leave the controller as it was. -/
theorem C6_no_query_unless_connected {Double : Type}
    (number : Double → Char → Nat → String) (g : GeneratorDevice)
    (query command : String) (v : Double) (env : QueryEnv)
    (h : ¬ (g.base.socket.isValid = true ∧ g.base.socket.state = SocketState.ConnectedState))
    (hd : (g.isKeysight || g.isRandS) = true) :
    ScpiDevice.sendQuery g.base query env =
        (g.base, Except.error
          (ScpiError.ScpiDeviceError "Incorrect socket state (invalid or not connected).")) ∧
      (ScpiError.ScpiDeviceError
        "Incorrect socket state (invalid or not connected).").isQueryError = false ∧
      (ScpiDevice.sendQuery g.base query env).1.calls = g.base.calls ∧
      ScpiDevice.sendCommand g.base command env =
        (g.base, Except.error
          (ScpiError.ScpiDeviceError "Incorrect socket state (invalid or not connected).")) ∧
      ScpiDevice.reset g.base env =
        (g.base, Except.error
          (ScpiError.ScpiDeviceError "Incorrect socket state (invalid or not connected).")) ∧
      ScpiDevice.clearState g.base env =
        (g.base, Except.error
          (ScpiError.ScpiDeviceError "Incorrect socket state (invalid or not connected).")) ∧
      (∀ r, r ∈ [GeneratorDevice.setFreq number g v env, GeneratorDevice.setPow number g v env,
                 GeneratorDevice.ALCoff g env, GeneratorDevice.setPW number g v env,
                 GeneratorDevice.setPRI number g v env, GeneratorDevice.activatePmod g env,
                 GeneratorDevice.deactivateRFpow g env, GeneratorDevice.activateRFpow g env,
                 GeneratorDevice.turnOffGui g env, GeneratorDevice.turnOnGui g env] →
        r = (g, Except.error
          (ScpiError.ScpiDeviceError "Incorrect socket state (invalid or not connected)."))) := by
  have hq := ScpiDevice.sendQuery_not_connected g.base query env h
  have hc := fun c => ScpiDevice.sendCommand_not_connected g.base c env h
  refine ⟨hq, rfl, by rw [hq], hc command, ?_, ?_, ?_⟩
  · unfold ScpiDevice.reset; rw [hc]
  · unfold ScpiDevice.clearState; rw [hc]
  · intro r hr
    simp only [List.mem_cons, List.mem_singleton, List.not_mem_nil, or_false] at hr
    have hk : g.isRandS = false → g.isKeysight = true := by
      intro h0; rw [h0] at hd; simpa using hd
    rcases hr with hr | hr | hr | hr | hr | hr | hr | hr | hr | hr <;> subst hr
    · simp only [GeneratorDevice.setFreq, hc, GeneratorDevice.onBase]
    · simp only [GeneratorDevice.setPow, hc, GeneratorDevice.onBase]
    · simp only [GeneratorDevice.ALCoff, hc, GeneratorDevice.onBase]
    · unfold GeneratorDevice.setPW
      cases hR : g.isRandS
      · rw [if_neg (by simp), if_pos (hk hR)]
        simp only [hc, GeneratorDevice.onBase]
      · simp only [hc, GeneratorDevice.onBase, if_true]
    · unfold GeneratorDevice.setPRI
      cases hR : g.isRandS
      · rw [if_neg (by simp), if_pos (hk hR)]
        simp only [hc, GeneratorDevice.onBase]
      · simp only [hc, GeneratorDevice.onBase, if_true]
    · simp only [GeneratorDevice.activatePmod, hc, GeneratorDevice.onBase]
    · simp only [GeneratorDevice.deactivateRFpow, hc, GeneratorDevice.onBase]
    · simp only [GeneratorDevice.activateRFpow, hc, GeneratorDevice.onBase]
    · simp only [GeneratorDevice.turnOffGui, hc, GeneratorDevice.onBase]
    · simp only [GeneratorDevice.turnOnGui, hc, GeneratorDevice.onBase]

/-- Witness of C6: a Keysight controller whose socket is still connecting. -/
theorem C6_no_query_unless_connected_witness :
    ScpiDevice.sendQuery
        { Sample.connected with socket := Sample.expiredConnecting.socket } "*IDN?"
        (Sample.answers "x") =
      ({ Sample.connected with socket := Sample.expiredConnecting.socket },
        Except.error
          (ScpiError.ScpiDeviceError "Incorrect socket state (invalid or not connected).")) :=
  (C6_no_query_unless_connected Sample.number
    { Sample.keysight with
        base := { Sample.connected with socket := Sample.expiredConnecting.socket } }
    "*IDN?" ":POW:ALC OFF" 150 (Sample.answers "x") (by decide) (by decide)).1

/-- C7: for an address that parses and every port value, the constructor throws if and
only if the port is 0 or above 65535; it then throws the `ScpiDeviceError` about the
port with no call made on any Qt object, so before socket, timer and event loop are
created; for every other port the constructed device stores exactly that port. -/
theorem C7_port_range_checked_before_socket
    (setAddress : String → Option String) (devIPaddr a : String) (devport : Nat)
    (ha : setAddress devIPaddr = some a) :
    ((ScpiDevice.ctor setAddress devIPaddr devport).2 ≠ Except.ok ()
        ↔ (devport = 0 ∨ devport > 65535)) ∧
      ((devport = 0 ∨ devport > 65535) →
        (ScpiDevice.ctor setAddress devIPaddr devport).2
            = Except.error (ScpiError.ScpiDeviceError "Invalid TCP port.") ∧
          (ScpiDevice.ctor setAddress devIPaddr devport).1.calls = []) ∧
      ((1 ≤ devport ∧ devport ≤ 65535) →
        (ScpiDevice.ctor setAddress devIPaddr devport).2 = Except.ok () ∧
          (ScpiDevice.ctor setAddress devIPaddr devport).1.port = devport ∧
          (ScpiDevice.ctor setAddress devIPaddr devport).1.calls =
            [Call.newSocket, Call.newTimer, Call.newEventLoop, Call.setSingleShot true]) := by
  by_cases hp : devport = 0 ∨ devport > 65535
  · have hc : ScpiDevice.ctor setAddress devIPaddr devport =
        ({ ScpiDevice.members with IPaddr := a },
          Except.error (ScpiError.ScpiDeviceError "Invalid TCP port.")) := by
      simp only [ScpiDevice.ctor, ScpiDevice.setIpAddr, ha, ScpiDevice.setPort, if_pos hp]
    rw [hc]
    refine ⟨?_, fun _ => ⟨rfl, rfl⟩, ?_⟩
    · simp [hp]
    · intro h; omega
  · have hc : ScpiDevice.ctor setAddress devIPaddr devport =
        ({ ScpiDevice.members with
            IPaddr := a
            port := devport
            calls := [Call.newSocket, Call.newTimer, Call.newEventLoop,
                      Call.setSingleShot true] },
          Except.ok ()) := by
      simp only [ScpiDevice.ctor, ScpiDevice.setIpAddr, ha, ScpiDevice.setPort, if_neg hp]
      rfl
    rw [hc]
    refine ⟨?_, fun h => absurd h hp, fun _ => ⟨rfl, rfl, rfl⟩⟩
    simp [hp]

/-- Witness of C7: port 0 at the address of the sample devices. -/
theorem C7_port_range_checked_before_socket_witness :
    (ScpiDevice.ctor Sample.setAddress "192.168.0.10" 0).2
        = Except.error (ScpiError.ScpiDeviceError "Invalid TCP port.") ∧
      (ScpiDevice.ctor Sample.setAddress "192.168.0.10" 0).1.calls = [] :=
  (C7_port_range_checked_before_socket Sample.setAddress "192.168.0.10" "192.168.0.10" 0
    (by decide)).2.1 (Or.inl rfl)

/-- C9, as stated, fails: the host never answers, the wait ends because the timer
fired, `connectToDevice` throws the timeout error, and the socket is still in
`ConnectingState`, not in `UnconnectedState`. -/
theorem C9_socket_still_connecting_after_connect_timeout :
    (ScpiDevice.connectToDevice Sample.idle
        { pendingData := false, wait := Sample.expiredConnecting }).2
        = Except.error
            (ScpiError.ScpiDeviceError "Error connecting to a device. Timeout expired.") ∧
      (ScpiDevice.connectToDevice Sample.idle
        { pendingData := false, wait := Sample.expiredConnecting }).1.socket.state
        = SocketState.ConnectingState ∧
      (ScpiDevice.connectToDevice Sample.idle
        { pendingData := false, wait := Sample.expiredConnecting }).1.socket.state
        ≠ SocketState.UnconnectedState := by
  decide

/-- C9, amended: when the wait of `connectToDevice` ends because the timer fired and
the socket is not connected at that moment, the call throws the `ScpiDeviceError`
about the connect timeout, which is no `ScpiQueryError`; the last call it made is the
event-loop wait, so nothing is done to the socket after the expiry: the socket is as
the transport left it, and `isConnected` is false. -/
theorem C9_connect_timeout_throws_and_leaves_socket_alone
    (d : ScpiDevice) (env : ConnectEnv)
    (hexp : env.wait.timerActive = false)
    (hnc : env.wait.socket.state ≠ SocketState.ConnectedState) :
    (ScpiDevice.connectToDevice d env).2
        = Except.error
            (ScpiError.ScpiDeviceError "Error connecting to a device. Timeout expired.") ∧
      (ScpiError.ScpiDeviceError
        "Error connecting to a device. Timeout expired.").isQueryError = false ∧
      (ScpiDevice.connectToDevice d env).1.socket = env.wait.socket ∧
      (ScpiDevice.connectToDevice d env).1.calls =
        (ScpiDevice.disconnectFromDevice d env.pendingData).calls ++
          [Call.connectQuit Signal.connected, Call.connectQuit Signal.timeout,
           Call.connectToHost d.IPaddr d.port, Call.timerStart d.timeout_ms, Call.exec] ∧
      ScpiDevice.isConnected (ScpiDevice.connectToDevice d env).1 = false := by
  have hfield : (ScpiDevice.disconnectFromDevice d env.pendingData).IPaddr = d.IPaddr ∧
      (ScpiDevice.disconnectFromDevice d env.pendingData).port = d.port ∧
      (ScpiDevice.disconnectFromDevice d env.pendingData).timeout_ms = d.timeout_ms := by
    unfold ScpiDevice.disconnectFromDevice
    split_ifs <;> exact ⟨rfl, rfl, rfl⟩
  obtain ⟨h1, h2, h3⟩ := hfield
  simp only [ScpiDevice.connectToDevice, hexp, Bool.not_false, if_true, h1, h2, h3,
    ScpiError.isQueryError, ScpiDevice.isConnected, true_and]
  simp [hnc]

/-- Witness of the amended C9: a host that never answers. -/
theorem C9_connect_timeout_throws_and_leaves_socket_alone_witness :
    (ScpiDevice.connectToDevice Sample.idle
        { pendingData := false, wait := Sample.expiredConnecting }).2
      = Except.error
          (ScpiError.ScpiDeviceError "Error connecting to a device. Timeout expired.") :=
  (C9_connect_timeout_throws_and_leaves_socket_alone Sample.idle
    { pendingData := false, wait := Sample.expiredConnecting } rfl (by decide)).1

/-! ## Claims about error propagation -/

/-- C10, as stated, fails on a device that is not connected.  The query exchange throws
a `ScpiDeviceError` that is no `ScpiQueryError`; `getIDN` passes it on with its message
unchanged, so without the context of the operation, and `checkForErrors` turns it into
a `ScpiQueryError`, so the category is not kept. -/
theorem C10_wrappers_drop_context_or_category :
    (ScpiDevice.sendQuery Sample.idle "*IDN?" (Sample.answers "x")).2
        = Except.error
            (ScpiError.ScpiDeviceError "Incorrect socket state (invalid or not connected).") ∧
      (ScpiDevice.getIDN Sample.idle (Sample.answers "x")).2
        = Except.error
            (ScpiError.ScpiDeviceError "Incorrect socket state (invalid or not connected).") ∧
      (ScpiDevice.getIDN Sample.idle (Sample.answers "x")).2
        ≠ Except.error
            (ScpiError.ScpiDeviceError
              "Unable to get an ID string: Incorrect socket state (invalid or not connected).") ∧
      (GeneratorDevice.checkForErrors { Sample.keysight with base := Sample.idle }
          (Sample.answers "x")).2
        = Except.error
            (ScpiError.ScpiQueryError
              "Unable to request the errors list (Incorrect socket state (invalid or not connected).)") := by
  decide

/-- C10, amended: when the query exchange under a wrapping operation throws, `getIDN`,
`reset` and `clearState` rethrow a `ScpiQueryError` as a `ScpiQueryError` whose message
is their own context followed by the original message, and pass on unchanged an error
that is no `ScpiQueryError`; `checkForErrors` throws an error whose message is its own
context with the original message inside, and a `ScpiQueryError` stays one. -/
theorem C10_wrappers_add_context_to_query_errors (g : GeneratorDevice) (env : QueryEnv)
    (e : ScpiError) :
    ((ScpiDevice.sendQuery g.base "*IDN?" env).2 = Except.error e →
        (ScpiDevice.getIDN g.base env).2 = Except.error
          (if e.isQueryError then
            ScpiError.ScpiQueryError ("Unable to get an ID string: " ++ e.what)
           else e)) ∧
      ((ScpiDevice.sendCommand g.base "*RST;" env).2 = Except.error e →
        (ScpiDevice.reset g.base env).2 = Except.error
          (if e.isQueryError then
            ScpiError.ScpiQueryError ("Unable to reset the device: " ++ e.what)
           else e)) ∧
      ((ScpiDevice.sendCommand g.base "*CLS;" env).2 = Except.error e →
        (ScpiDevice.clearState g.base env).2 = Except.error
          (if e.isQueryError then
            ScpiError.ScpiQueryError
              ("Unable to clear the device's state register: " ++ e.what)
           else e)) ∧
      ((ScpiDevice.sendQuery g.base "SYST:ERR?" env).2 = Except.error e →
        ∃ e', (GeneratorDevice.checkForErrors g env).2 = Except.error e' ∧
          e'.what = "Unable to request the errors list (" ++ e.what ++ ")" ∧
          (e.isQueryError = true → e'.isQueryError = true)) := by
  refine ⟨?_, ?_, ?_, ?_⟩
  · intro h
    unfold ScpiDevice.getIDN
    rcases hr : ScpiDevice.sendQuery g.base "*IDN?" env with ⟨d', r⟩
    rw [hr] at h
    simp only at h
    subst h
    cases e <;> simp [ScpiError.isQueryError, ScpiError.what, arg_getIDN]
  · intro h
    unfold ScpiDevice.reset
    rcases hr : ScpiDevice.sendCommand g.base "*RST;" env with ⟨d', r⟩
    rw [hr] at h
    simp only at h
    subst h
    cases e <;> simp [ScpiError.isQueryError, ScpiError.what, arg_reset]
  · intro h
    unfold ScpiDevice.clearState
    rcases hr : ScpiDevice.sendCommand g.base "*CLS;" env with ⟨d', r⟩
    rw [hr] at h
    simp only at h
    subst h
    cases e <;> simp [ScpiError.isQueryError, ScpiError.what, arg_clearState]
  · intro h
    unfold GeneratorDevice.checkForErrors
    rcases hr : ScpiDevice.sendQuery g.base "SYST:ERR?" env with ⟨d', r⟩
    rw [hr] at h
    simp only at h
    subst h
    exact ⟨_, rfl, by simp [ScpiError.what, arg_checkForErrors], fun _ => rfl⟩

/-- Witness of the amended C10: the device accepts the identity query and never
answers, and `getIDN` puts its context before the receive-timeout message. -/
theorem C10_wrappers_add_context_to_query_errors_witness :
    (ScpiDevice.getIDN Sample.connected Sample.silent).2 = Except.error
      (ScpiError.ScpiQueryError
        ("Unable to get an ID string: " ++ "Receiving timeout expired.")) :=
  (C10_wrappers_add_context_to_query_errors
    { Sample.keysight with base := Sample.connected } Sample.silent
    (ScpiError.ScpiQueryError "Receiving timeout expired.")).1 (by decide)

/-! ## Claims about the controller -/

namespace GeneratorDevice

theorem identify_ok (g0 g : GeneratorDevice) (qenv : QueryEnv) (pendingData : Bool)
    (h : identify g0 qenv pendingData = (g, Except.ok ())) :
    g.IDstring = qenv.response ∧
      g.isKeysight = (containsCI g.IDstring "Agilent" || containsCI g.IDstring "Keysight") ∧
      g.isRandS = containsCI g.IDstring "Rohde&Schwarz" ∧
      (g.isKeysight || g.isRandS) = true := by
  unfold identify at h
  rcases hq : ScpiDevice.getIDN g0.base qenv with ⟨d, e | idn⟩
  · rw [hq] at h
    simp at h
  · rw [hq] at h
    have hr := ScpiDevice.getIDN_ok_response _ _ _ _ hq
    simp only at h
    split_ifs at h with hs
    · simp at h
    · simp only [Prod.mk.injEq, and_true] at h
      subst h
      refine ⟨hr, rfl, rfl, ?_⟩
      simp only [Bool.not_eq_true, Bool.not_eq_false_eq_eq_true, Bool.not_eq_true'] at hs
      cases hv : (containsCI idn "Agilent" || containsCI idn "Keysight" ||
        containsCI idn "Rohde&Schwarz")
      · rw [hv] at hs; simp at hs
      · rfl

theorem identify_timeout (g0 : GeneratorDevice) (qenv : QueryEnv) (pendingData : Bool) :
    (identify g0 qenv pendingData).1.base.timeout_ms = g0.base.timeout_ms := by
  have hq := ScpiDevice.getIDN_timeout g0.base qenv
  unfold identify
  rcases hr : ScpiDevice.getIDN g0.base qenv with ⟨d, e | idn⟩
  · rw [hr] at hq
    simp only [ScpiDevice.disconnectFromDevice_timeout]
    exact hq
  · rw [hr] at hq
    simp only
    split_ifs
    · simp only [ScpiDevice.disconnectFromDevice_timeout]
      exact hq
    · exact hq

theorem generator_ctor_timeout (setAddress : String → Option String) (genIPaddr : String)
    (genport : Nat) (cenv : ConnectEnv) (qenv : QueryEnv) (pendingData : Bool) :
    (ctor setAddress genIPaddr genport cenv qenv pendingData).1.base.timeout_ms = 1000 := by
  have h0 := ScpiDevice.ctor_timeout setAddress genIPaddr genport
  unfold ctor
  rcases hr : ScpiDevice.ctor setAddress genIPaddr genport with ⟨d0, e | u⟩
  · rw [hr] at h0; exact h0
  · rw [hr] at h0
    simp only
    have h1 := ScpiDevice.connectToDevice_timeout d0 cenv
    rcases hc : ScpiDevice.connectToDevice d0 cenv with ⟨d1, e | u⟩
    · rw [hc] at h1; simp only; rw [h1]; exact h0
    · rw [hc] at h1
      simp only
      rw [identify_timeout]
      simp only
      rw [h1]; exact h0

theorem sendsCommand_timeout (g : GeneratorDevice) (command : String) (env : QueryEnv) :
    (onBase g (ScpiDevice.sendCommand g.base command env)).1.base.timeout_ms
      = g.base.timeout_ms :=
  ScpiDevice.sendCommand_timeout g.base command env

theorem setPW_timeout {Double : Type} (number : Double → Char → Nat → String)
    (g : GeneratorDevice) (v : Double) (env : QueryEnv) :
    (setPW number g v env).1.base.timeout_ms = g.base.timeout_ms := by
  unfold setPW
  split_ifs
  · exact sendsCommand_timeout g _ env
  · exact sendsCommand_timeout g _ env
  · rfl

theorem setPRI_timeout {Double : Type} (number : Double → Char → Nat → String)
    (g : GeneratorDevice) (v : Double) (env : QueryEnv) :
    (setPRI number g v env).1.base.timeout_ms = g.base.timeout_ms := by
  unfold setPRI
  split_ifs
  · exact sendsCommand_timeout g _ env
  · exact sendsCommand_timeout g _ env
  · rfl

theorem checkForStaticErrors_timeout (g : GeneratorDevice) (env : QueryEnv) :
    (checkForStaticErrors g env).1.base.timeout_ms = g.base.timeout_ms := by
  have hq := ScpiDevice.sendQuery_timeout g.base "SYST:SERR?" env
  unfold checkForStaticErrors
  split_ifs
  · rfl
  · rcases hr : ScpiDevice.sendQuery g.base "SYST:SERR?" env with ⟨d, e | r⟩
    · rw [hr] at hq; exact hq
    · rw [hr] at hq
      simp only
      split_ifs <;> exact hq

theorem checkForErrors_timeout (g : GeneratorDevice) (env : QueryEnv) :
    (checkForErrors g env).1.base.timeout_ms = g.base.timeout_ms := by
  have hq := ScpiDevice.sendQuery_timeout g.base "SYST:ERR?" env
  unfold checkForErrors
  rcases hr : ScpiDevice.sendQuery g.base "SYST:ERR?" env with ⟨d, e | r⟩
  · rw [hr] at hq; exact hq
  · rw [hr] at hq
    simp only
    split_ifs <;> exact hq

theorem ctor_ok (setAddress : String → Option String) (genIPaddr : String) (genport : Nat)
    (cenv : ConnectEnv) (qenv : QueryEnv) (pendingData : Bool) (g : GeneratorDevice)
    (h : ctor setAddress genIPaddr genport cenv qenv pendingData = (g, Except.ok ())) :
    g.IDstring = qenv.response ∧
      g.isKeysight = (containsCI g.IDstring "Agilent" || containsCI g.IDstring "Keysight") ∧
      g.isRandS = containsCI g.IDstring "Rohde&Schwarz" ∧
      (g.isKeysight || g.isRandS) = true := by
  unfold ctor at h
  rcases h0 : ScpiDevice.ctor setAddress genIPaddr genport with ⟨d0, e | u⟩
  · rw [h0] at h; simp at h
  · rw [h0] at h
    simp only at h
    rcases h1 : ScpiDevice.connectToDevice d0 cenv with ⟨d1, e | u⟩
    · rw [h1] at h; simp at h
    · rw [h1] at h
      exact identify_ok _ g qenv pendingData h

end GeneratorDevice

/-- C2, as stated, fails: the identification string contains `Keysight` and also
`Rohde&Schwarz`; construction succeeds and the dialect `setPW` and `setPRI` dispatch on
is Rohde&Schwarz, not Keysight. -/
theorem C2_keysight_in_identity_resolves_to_rohde :
    containsCI "Rohde&Schwarz,SMW200A,Keysight emulation" "keysight" = true ∧
      (GeneratorDevice.ctor Sample.setAddress "192.168.0.10" 5025 Sample.connects
        (Sample.answers "Rohde&Schwarz,SMW200A,Keysight emulation") false).2 = Except.ok () ∧
      (GeneratorDevice.ctor Sample.setAddress "192.168.0.10" 5025 Sample.connects
        (Sample.answers "Rohde&Schwarz,SMW200A,Keysight emulation") false).1.dialect
        = Dialect.RohdeSchwarz ∧
      (GeneratorDevice.ctor Sample.setAddress "192.168.0.10" 5025 Sample.connects
        (Sample.answers "Rohde&Schwarz,SMW200A,Keysight emulation") false).1.dialect
        ≠ Dialect.Keysight := by
  decide

/-- C2, amended: for every constructor call that returns, with `idn` the text returned
to the identity query: if `idn` contains `rohde&schwarz` in any letter case the
dialect is Rohde&Schwarz; if it contains `agilent` or `keysight` in any letter case
and does not contain `rohde&schwarz`, the dialect is Keysight; the dialect is one of
these two values and never `Unknown`; and `setPW` and `setPRI` dispatch on it. -/
theorem C2_dialect_resolved_with_rohde_first {Double : Type}
    (number : Double → Char → Nat → String)
    (setAddress : String → Option String) (genIPaddr : String) (genport : Nat)
    (cenv : ConnectEnv) (qenv : QueryEnv) (pendingData : Bool) (g : GeneratorDevice)
    (v : Double) (env : QueryEnv)
    (h : GeneratorDevice.ctor setAddress genIPaddr genport cenv qenv pendingData
          = (g, Except.ok ())) :
    g.IDstring = qenv.response ∧
      (containsCI qenv.response "rohde&schwarz" = true → g.dialect = Dialect.RohdeSchwarz) ∧
      ((containsCI qenv.response "agilent" = true ∨ containsCI qenv.response "keysight" = true) →
        containsCI qenv.response "rohde&schwarz" = false → g.dialect = Dialect.Keysight) ∧
      (g.dialect = Dialect.RohdeSchwarz ∨ g.dialect = Dialect.Keysight) ∧
      g.dialect ≠ Dialect.Unknown ∧
      GeneratorDevice.setPW number g v env =
        (match g.dialect with
         | Dialect.RohdeSchwarz => GeneratorDevice.onBase g (ScpiDevice.sendCommand g.base
              (argDouble number ":PULM:WIDT %1uS" v 'f' 2) env)
         | Dialect.Keysight => GeneratorDevice.onBase g (ScpiDevice.sendCommand g.base
              (argDouble number ":PULM:INT:PWID %1uS" v 'f' 2) env)
         | Dialect.Unknown => (g, Except.ok ())) ∧
      GeneratorDevice.setPRI number g v env =
        (match g.dialect with
         | Dialect.RohdeSchwarz => GeneratorDevice.onBase g (ScpiDevice.sendCommand g.base
              (argDouble number ":PULM:PER %1uS" v 'f' 2) env)
         | Dialect.Keysight => GeneratorDevice.onBase g (ScpiDevice.sendCommand g.base
              (argDouble number ":PULM:INT:PER %1uS" v 'f' 2) env)
         | Dialect.Unknown => (g, Except.ok ())) := by
  obtain ⟨hid, hk, hr, hsup⟩ :=
    GeneratorDevice.ctor_ok setAddress genIPaddr genport cenv qenv pendingData g h
  obtain ⟨la, lk, lr⟩ := containsCI_lower qenv.response
  rw [hid] at hk hr
  rw [la, lk, lr]
  unfold GeneratorDevice.setPW GeneratorDevice.setPRI GeneratorDevice.dialect
  cases hR : g.isRandS <;> cases hK : g.isKeysight
  · rw [hR, hK] at hsup; simp at hsup
  · rw [hR] at hr; rw [← hr]; simp [hid]
  · rw [hR] at hr; rw [← hr]; simp [hid]
  · rw [hR] at hr; rw [← hr]; simp [hid]

/-- Witness of the amended C2: a generator that identifies itself as Agilent. -/
theorem C2_dialect_resolved_with_rohde_first_witness :
    (GeneratorDevice.ctor Sample.setAddress "192.168.0.10" 5025 Sample.connects
        (Sample.answers "Agilent Technologies, E8267D") false).1.dialect = Dialect.Keysight :=
  (C2_dialect_resolved_with_rohde_first Sample.number Sample.setAddress "192.168.0.10" 5025
    Sample.connects (Sample.answers "Agilent Technologies, E8267D") false
    (GeneratorDevice.ctor Sample.setAddress "192.168.0.10" 5025 Sample.connects
        (Sample.answers "Agilent Technologies, E8267D") false).1
    150 (Sample.answers "1") (by decide)).2.2.1 (Or.inl (by decide)) (by decide)

/-- C4: with `f` the rendering of the value in format `f` with precision 2, `setPW`
sends `:PULM:INT:PWID f uS` through `sendCommand` when the dialect is Keysight and
`:PULM:WIDT f uS` when it is Rohde&Schwarz, and `setPRI` sends `:PULM:INT:PER f uS` and
`:PULM:PER f uS`; the strings of the two dialects share `f` and the unit and differ in
the mnemonic only. -/
theorem C4_pulse_commands_by_dialect {Double : Type}
    (number : Double → Char → Nat → String) (g : GeneratorDevice) (v : Double)
    (env : QueryEnv) :
    (g.dialect = Dialect.Keysight →
        GeneratorDevice.setPW number g v env =
            GeneratorDevice.onBase g (ScpiDevice.sendCommand g.base
              (":PULM:INT:PWID" ++ " " ++ number v 'f' 2 ++ "uS") env) ∧
          GeneratorDevice.setPRI number g v env =
            GeneratorDevice.onBase g (ScpiDevice.sendCommand g.base
              (":PULM:INT:PER" ++ " " ++ number v 'f' 2 ++ "uS") env)) ∧
      (g.dialect = Dialect.RohdeSchwarz →
        GeneratorDevice.setPW number g v env =
            GeneratorDevice.onBase g (ScpiDevice.sendCommand g.base
              (":PULM:WIDT" ++ " " ++ number v 'f' 2 ++ "uS") env) ∧
          GeneratorDevice.setPRI number g v env =
            GeneratorDevice.onBase g (ScpiDevice.sendCommand g.base
              (":PULM:PER" ++ " " ++ number v 'f' 2 ++ "uS") env)) := by
  have e1 := arg_unit ":PULM:WIDT" (number v 'f' 2) (by simp)
  have e2 := arg_unit ":PULM:INT:PWID" (number v 'f' 2) (by simp)
  have e3 := arg_unit ":PULM:PER" (number v 'f' 2) (by simp)
  have e4 := arg_unit ":PULM:INT:PER" (number v 'f' 2) (by simp)
  have t1 : ":PULM:WIDT" ++ " %1uS" = ":PULM:WIDT %1uS" := by decide
  have t2 : ":PULM:INT:PWID" ++ " %1uS" = ":PULM:INT:PWID %1uS" := by decide
  have t3 : ":PULM:PER" ++ " %1uS" = ":PULM:PER %1uS" := by decide
  have t4 : ":PULM:INT:PER" ++ " %1uS" = ":PULM:INT:PER %1uS" := by decide
  rw [t1] at e1; rw [t2] at e2; rw [t3] at e3; rw [t4] at e4
  unfold GeneratorDevice.setPW GeneratorDevice.setPRI GeneratorDevice.dialect argDouble
  rw [e1, e2, e3, e4]
  cases hR : g.isRandS <;> cases hK : g.isKeysight <;> simp

/-- Witness of C4: the Keysight sample controller and the value 1.50; the line written
to the socket is the Keysight command with that value and the completion request. -/
theorem C4_pulse_commands_by_dialect_witness :
    GeneratorDevice.setPW Sample.number Sample.keysight 150 (Sample.answers "1") =
        GeneratorDevice.onBase Sample.keysight (ScpiDevice.sendCommand Sample.keysight.base
          (":PULM:INT:PWID" ++ " " ++ Sample.number 150 'f' 2 ++ "uS") (Sample.answers "1")) ∧
      Call.write ":PULM:INT:PWID 1.50uS; *OPC?\n" ∈
        (GeneratorDevice.setPW Sample.number Sample.keysight 150
          (Sample.answers "1")).1.base.calls :=
  ⟨((C4_pulse_commands_by_dialect Sample.number Sample.keysight 150
      (Sample.answers "1")).1 (by decide)).1, by decide⟩

/-- C3: when the base constructor and the connect step have succeeded, a failing
identity query makes the constructor throw the error of `getIDN`, and an identification
string that contains none of `agilent`, `keysight`, `rohde&schwarz` in any letter case
makes it throw the `ScpiDeviceError` about the unsupported generator; in both cases the
base object the exception leaves behind is the result of `disconnectFromDevice`, so it
is not connected; and a constructor call that returns never has the dialect `Unknown`. -/
theorem C3_failed_identification_disconnects
    (setAddress : String → Option String) (genIPaddr : String) (genport : Nat)
    (cenv : ConnectEnv) (qenv : QueryEnv) (pendingData : Bool) (d0 d1 : ScpiDevice)
    (h0 : ScpiDevice.ctor setAddress genIPaddr genport = (d0, Except.ok ()))
    (h1 : ScpiDevice.connectToDevice d0 cenv = (d1, Except.ok ())) :
    (∀ d2 err, ScpiDevice.getIDN d1 qenv = (d2, Except.error err) →
        GeneratorDevice.ctor setAddress genIPaddr genport cenv qenv pendingData =
          ({ GeneratorDevice.members with
              base := ScpiDevice.disconnectFromDevice d2 pendingData }, Except.error err)) ∧
      (∀ d2 idn, ScpiDevice.getIDN d1 qenv = (d2, Except.ok idn) →
        containsCI idn "agilent" = false → containsCI idn "keysight" = false →
        containsCI idn "rohde&schwarz" = false →
        GeneratorDevice.ctor setAddress genIPaddr genport cenv qenv pendingData =
          ({ base := ScpiDevice.disconnectFromDevice d2 pendingData, IDstring := idn,
             isKeysight := false, isRandS := false },
            Except.error (ScpiError.ScpiDeviceError GeneratorDevice.unsupportedMessage))) ∧
      ((GeneratorDevice.ctor setAddress genIPaddr genport cenv qenv pendingData).2
          ≠ Except.ok () →
        ScpiDevice.isConnected
          (GeneratorDevice.ctor setAddress genIPaddr genport cenv qenv pendingData).1.base
          = false) ∧
      ((GeneratorDevice.ctor setAddress genIPaddr genport cenv qenv pendingData).2
          = Except.ok () →
        (GeneratorDevice.ctor setAddress genIPaddr genport cenv qenv pendingData).1.dialect
          ≠ Dialect.Unknown) := by
  have hc : GeneratorDevice.ctor setAddress genIPaddr genport cenv qenv pendingData =
      GeneratorDevice.identify { GeneratorDevice.members with base := d1 } qenv pendingData := by
    unfold GeneratorDevice.ctor
    rw [h0]
    simp only
    rw [h1]
  rw [hc]
  unfold GeneratorDevice.identify
  simp only
  refine ⟨?_, ?_, ?_, ?_⟩
  · intro d2 err hq
    rw [hq]
  · intro d2 idn hq ha hk hr
    obtain ⟨la, lk, lr⟩ := containsCI_lower idn
    rw [la] at ha; rw [lk] at hk; rw [lr] at hr
    rw [hq]
    simp [ha, hk, hr, GeneratorDevice.members]
  · rcases hq : ScpiDevice.getIDN d1 qenv with ⟨d2, e | idn⟩
    · intro _
      exact ScpiDevice.isConnected_disconnectFromDevice d2 pendingData
    · simp only
      split_ifs
      · intro _
        exact ScpiDevice.isConnected_disconnectFromDevice d2 pendingData
      · intro hne
        exact absurd rfl hne
  · rcases hq : ScpiDevice.getIDN d1 qenv with ⟨d2, e | idn⟩
    · intro hne
      simp at hne
    · simp only
      split_ifs with hs
      · intro hne
        simp at hne
      · intro _
        unfold GeneratorDevice.dialect
        simp only
        cases hR : containsCI idn "Rohde&Schwarz"
        · cases hK : (containsCI idn "Agilent" || containsCI idn "Keysight")
          · rw [hR, hK] at hs; simp at hs
          · simp
        · simp

/-- Witness of C3: construction at the sample address, the connection is made in time,
and the device never answers the identity query. -/
theorem C3_failed_identification_disconnects_witness :
    GeneratorDevice.ctor Sample.setAddress "192.168.0.10" 5025 Sample.connects
        Sample.silent false =
      ({ GeneratorDevice.members with
          base := ScpiDevice.disconnectFromDevice
            (ScpiDevice.getIDN
              (ScpiDevice.connectToDevice
                (ScpiDevice.ctor Sample.setAddress "192.168.0.10" 5025).1 Sample.connects).1
              Sample.silent).1 false },
        Except.error (ScpiError.ScpiQueryError
          "Unable to get an ID string: Receiving timeout expired.")) :=
  (C3_failed_identification_disconnects Sample.setAddress "192.168.0.10" 5025
    Sample.connects Sample.silent false
    (ScpiDevice.ctor Sample.setAddress "192.168.0.10" 5025).1
    (ScpiDevice.connectToDevice
      (ScpiDevice.ctor Sample.setAddress "192.168.0.10" 5025).1 Sample.connects).1
    (by decide) (by decide)).1 _ _ (by decide)

/-- C8: the timeout starts at 1000 ms, in the member initialisers and after every
constructor call; `setTimeout` throws if and only if the value is above 100000, it
then leaves the device as it was, and otherwise it stores exactly the value; no step
other than `setTimeout` changes the timeout; so in every reachable controller the
timeout is at most 100000 ms. -/
theorem C8_timeout_never_above_ceiling {Double : Type}
    (number : Double → Char → Nat → String) (setAddress : String → Option String) :
    ScpiDevice.members.timeout_ms = 1000 ∧
      (∀ genIPaddr genport cenv qenv pendingData,
        (GeneratorDevice.ctor setAddress genIPaddr genport cenv qenv
          pendingData).1.base.timeout_ms = 1000) ∧
      (∀ (d : ScpiDevice) (t : Nat),
        ((ScpiDevice.setTimeout d t).2 ≠ Except.ok () ↔ t > 100000) ∧
        (t > 100000 → ScpiDevice.setTimeout d t =
          (d, Except.error (ScpiError.ScpiDeviceError "The SCPI timeout is too large."))) ∧
        (t ≤ 100000 →
          ScpiDevice.setTimeout d t = ({ d with timeout_ms := t }, Except.ok ()))) ∧
      (∀ (op : Op Double) (g : GeneratorDevice), op.isSetTimeout = false →
        (op.run number g).base.timeout_ms = g.base.timeout_ms) ∧
      (∀ g : GeneratorDevice, Reachable number setAddress g →
        g.base.timeout_ms ≤ 100000) := by
  have hset : ∀ (d : ScpiDevice) (t : Nat),
      ((ScpiDevice.setTimeout d t).2 ≠ Except.ok () ↔ t > 100000) ∧
      (t > 100000 → ScpiDevice.setTimeout d t =
        (d, Except.error (ScpiError.ScpiDeviceError "The SCPI timeout is too large."))) ∧
      (t ≤ 100000 →
        ScpiDevice.setTimeout d t = ({ d with timeout_ms := t }, Except.ok ())) := by
    intro d t
    unfold ScpiDevice.setTimeout
    by_cases ht : t > 100000
    · simp [ht]
    · rw [if_neg ht]
      exact ⟨by simp [ht], fun h => absurd h ht, fun _ => rfl⟩
  have hother : ∀ (op : Op Double) (g : GeneratorDevice), op.isSetTimeout = false →
      (op.run number g).base.timeout_ms = g.base.timeout_ms := by
    intro op g hop
    cases op with
    | setTimeout t => simp [Op.isSetTimeout] at hop
    | connectToDevice env => exact ScpiDevice.connectToDevice_timeout g.base env
    | disconnectFromDevice p => exact ScpiDevice.disconnectFromDevice_timeout g.base p
    | reset env => exact ScpiDevice.reset_timeout g.base env
    | clearState env => exact ScpiDevice.clearState_timeout g.base env
    | getIDN env => exact ScpiDevice.getIDN_timeout g.base env
    | sendCommand c env => exact ScpiDevice.sendCommand_timeout g.base c env
    | sendQuery q env => exact ScpiDevice.sendQuery_timeout g.base q env
    | setFreq v env => exact GeneratorDevice.sendsCommand_timeout g _ env
    | setPow v env => exact GeneratorDevice.sendsCommand_timeout g _ env
    | ALCoff env => exact GeneratorDevice.sendsCommand_timeout g _ env
    | setPW v env => exact GeneratorDevice.setPW_timeout number g v env
    | setPRI v env => exact GeneratorDevice.setPRI_timeout number g v env
    | activatePmod env => exact GeneratorDevice.sendsCommand_timeout g _ env
    | deactivateRFpow env => exact GeneratorDevice.sendsCommand_timeout g _ env
    | activateRFpow env => exact GeneratorDevice.sendsCommand_timeout g _ env
    | checkForStaticErrors env => exact GeneratorDevice.checkForStaticErrors_timeout g env
    | checkForErrors env => exact GeneratorDevice.checkForErrors_timeout g env
    | turnOffGui env => exact GeneratorDevice.sendsCommand_timeout g _ env
    | turnOnGui env => exact GeneratorDevice.sendsCommand_timeout g _ env
    | transport socket => rfl
  refine ⟨rfl, fun a p c q b => GeneratorDevice.generator_ctor_timeout setAddress a p c q b,
    hset, hother, ?_⟩
  intro g hg
  induction hg with
  | constructed a p c q b g h =>
    have ht := GeneratorDevice.generator_ctor_timeout setAddress a p c q b
    rw [h] at ht
    simp only at ht
    omega
  | step op g _ ih =>
    cases hop : op.isSetTimeout
    · rw [hother op g hop]; exact ih
    · cases op with
      | setTimeout t =>
        show (ScpiDevice.setTimeout g.base t).1.timeout_ms ≤ 100000
        by_cases ht : t > 100000
        · rw [(hset g.base t).2.1 ht]; exact ih
        · rw [(hset g.base t).2.2 (by omega)]
          show t ≤ 100000
          omega
      | _ => simp [Op.isSetTimeout] at hop

/-- Witness of C8: the sample controller after a call of `setTimeout` with a value
above the ceiling. -/
theorem C8_timeout_never_above_ceiling_witness :
    (Op.run Sample.number (Op.setTimeout 200000)
      (GeneratorDevice.ctor Sample.setAddress "192.168.0.10" 5025 Sample.connects
        (Sample.answers "Rohde&Schwarz,SMB100A") false).1).base.timeout_ms ≤ 100000 :=
  (C8_timeout_never_above_ceiling Sample.number Sample.setAddress).2.2.2.2 _
    (Reachable.step (Op.setTimeout 200000) _
      (Reachable.constructed "192.168.0.10" 5025 Sample.connects
        (Sample.answers "Rohde&Schwarz,SMB100A") false _ (by decide)))
